import Mathlib

/-!
# Verification of the realtime event-broadcast layer of the Smart-Tourist backend

Shallow embedding of the Socket.IO server in `src/backend/test-direct-login.js`
(the `io.use` auth middleware, the `io.on('connection')` handler with its room
joins and event handlers) and of the login route in
`src/backend/routes/simple-login.js` (`generateToken`, `POST /login`).

The semantics of the Socket.IO primitives the code calls are embedded
explicitly: `socket.join(r)` adds the socket to room `r` (idempotent),
`socket.to(r).emit(t, d)` delivers `(t, d)` to every current member of `r`
except the sender, and a disconnect removes the socket from every room it was
in before any further event is processed.
-/

namespace TouristPlatform

/-- The JWT payload: `jwt.sign({ userId: user.id }, ...)` carries a `userId`
claim and optionally a `role` claim (`decoded.role` in the middleware;
`none` models the claim being absent, i.e. `undefined` in JS). -/
structure Claims where
  userId : String
  role : Option String
deriving DecidableEq

/-- A bearer token: its payload together with whether its signature checks out
and whether it has expired (the two conditions `jwt.verify` enforces). -/
structure Token where
  claims : Claims
  validSignature : Bool
  expired : Bool
deriving DecidableEq

/-- Model of `jwt.verify(token, secret)`: returns the decoded payload when the
signature is valid and the token is not expired, otherwise throws
(modelled as `none`). -/
def jwtVerify (t : Token) : Option Claims :=
  if t.validSignature && !t.expired then some t.claims else none

/-- The two failure modes of the socket auth middleware
(`test-direct-login.js` lines 185-201): `missing` is the
`if (!token) return next(new Error('Authentication error'))` branch,
`invalid` is the `catch` branch around `jwt.verify`. -/
inductive AuthError
  | missing
  | invalid
deriving DecidableEq

/-- The `io.use` middleware (`test-direct-login.js` lines 185-201): no token
rejects with the missing-credential branch; a token failing `jwt.verify`
rejects with the catch branch; otherwise the decoded `(userId, role)` is
attached to the socket. -/
def verifyCredential : Option Token → Except AuthError Claims
  | none => .error .missing
  | some t =>
    match jwtVerify t with
    | some c => .ok c
    | none => .error .invalid

/-- The `generateToken` helper (`routes/simple-login.js` lines 21-27): signs a payload
holding only `{ userId }` — no `role` claim — with a 7-day expiry, so the
token is fresh and correctly signed at issuance. -/
def generateToken (userId : String) : Token :=
  { claims := { userId := userId, role := none }
    validSignature := true
    expired := false }

/-- Socket identifier (Socket.IO assigns each connection a fresh id). -/
abbrev SockId := Nat

/-- A connected socket after the middleware ran: `socket.userId` and
`socket.userRole` as set on lines 195-196. -/
structure Socket where
  sid : SockId
  userId : String
  userRole : Option String
deriving DecidableEq

/-- Server state: the connected sockets and the room membership relation
(pairs of room name and socket id). -/
structure ServerState where
  socks : List Socket
  rooms : List (String × SockId)
deriving DecidableEq

/-- The server right after startup: no sockets, no rooms. -/
def initState : ServerState := ⟨[], []⟩

/-- The personal room name `` `user_${id}` `` (lines 207 and 228). -/
def userRoom (uid : String) : String := "user_" ++ uid

/-- The admin-room guard on line 210:
`socket.userRole === 'admin' || socket.userRole === 'government'`. -/
def privileged (role : Option String) : Bool :=
  role == some "admin" || role == some "government"

/-- Model of `socket.join(r)`: adds the socket to room `r`; idempotent. -/
def join (s : ServerState) (r : String) (sid : SockId) : ServerState :=
  if (r, sid) ∈ s.rooms then s else { s with rooms := (r, sid) :: s.rooms }

/-- The current members of a room (a snapshot of the membership relation). -/
def members (s : ServerState) (r : String) : List SockId :=
  (s.rooms.filter (fun p => p.1 == r)).map (fun p => p.2)

/-- The `io.on('connection')` prologue (lines 203-212): register the socket,
join it to its personal room, and join it to `admin_room` iff its role is
`admin` or `government`. -/
def onConnection (s : ServerState) (sock : Socket) : ServerState :=
  let s1 : ServerState := { s with socks := sock :: s.socks }
  let s2 := join s1 (userRoom sock.userId) sock.sid
  if privileged sock.userRole then join s2 "admin_room" sock.sid else s2

/-- A full connection attempt: the middleware either rejects (the socket
never reaches the connection handler) or the connection handler runs with
the decoded identity. -/
def connect (s : ServerState) (sid : SockId) (tok : Option Token) : ServerState :=
  match verifyCredential tok with
  | .error _ => s
  | .ok c => onConnection s { sid := sid, userId := c.userId, userRole := c.role }

/-- Disconnect (lines 239-241 plus Socket.IO semantics): the socket is
dropped and removed from every room before any further event is processed;
the handler itself only logs. -/
def disconnect (s : ServerState) (sid : SockId) : ServerState :=
  { socks := s.socks.filter (fun sk => sk.sid != sid)
    rooms := s.rooms.filter (fun p => p.2 != sid) }

/-- The event types this layer routes. -/
inductive EventType
  | device_update
  | emergency_alert
  | location_update
  | emergency_notification
deriving DecidableEq

/-- An event payload (`data`): the `contacts` field the emergency handler
reads (`none` models absent or falsy), and the rest of the payload,
forwarded verbatim. -/
structure Payload where
  contacts : Option (List String)
  body : String
deriving DecidableEq

/-- One delivery produced by routing: recipient socket, event type as
emitted, and the payload (forwarded verbatim). -/
structure Delivery where
  recipient : SockId
  etype : EventType
  payload : Payload
deriving DecidableEq

/-- Model of `socket.to(room).emit(et, d)`: one delivery of `(et, d)` to every current
member of `room` except the sender. -/
def emitTo (s : ServerState) (sender : SockId) (room : String) (et : EventType)
    (d : Payload) : List Delivery :=
  ((members s room).filter (fun m => m != sender)).map (fun m => ⟨m, et, d⟩)

/-- The event handlers (lines 215-237): `device_update` and `location_update`
go to `admin_room`; `emergency_alert` goes to `admin_room` and, when
`data.contacts` is truthy, to `` `user_${contact}` `` for each contact,
re-tagged `emergency_notification`; an inbound `emergency_notification` has
no handler and is dropped. -/
def route (s : ServerState) (sender : SockId) (et : EventType) (d : Payload) :
    List Delivery :=
  match et with
  | .device_update => emitTo s sender "admin_room" .device_update d
  | .location_update => emitTo s sender "admin_room" .location_update d
  | .emergency_alert =>
    emitTo s sender "admin_room" .emergency_alert d ++
      (match d.contacts with
       | some cs => cs.flatMap (fun c => emitTo s sender (userRoom c) .emergency_notification d)
       | none => [])
  | .emergency_notification => []

/-- Per-recipient sends with a failure oracle: each delivery is attempted
independently and its failure is recorded, never propagated (Socket.IO's
`emit` is fire-and-forget). -/
def fanOut (sendFails : SockId → Bool) (ds : List Delivery) : List (Delivery × Bool) :=
  ds.map (fun dl => (dl, !sendFails dl.recipient))

/-- One externally visible action of the server. A connect only happens with
a fresh socket id (Socket.IO never reuses the id of a live socket). -/
inductive Action
  | connect (sid : SockId) (tok : Option Token)
  | emit (sid : SockId) (et : EventType) (d : Payload)
  | disconnect (sid : SockId)

/-- The state transition of one action; emitting an event routes deliveries
but never changes room membership. -/
def step (s : ServerState) : Action → ServerState
  | .connect sid tok =>
    if s.socks.any (fun sk => sk.sid == sid) then s else connect s sid tok
  | .emit _ _ _ => s
  | .disconnect sid => disconnect s sid

/-- The state after a trace of actions from startup. -/
def run (acts : List Action) : ServerState := acts.foldl step initState

/-! ## Basic lemmas about rooms, joining and routing -/

theorem mem_members_iff (s : ServerState) (r : String) (m : SockId) :
    m ∈ members s r ↔ (r, m) ∈ s.rooms := by
  simp only [members, List.mem_map, List.mem_filter, beq_iff_eq]
  constructor
  · rintro ⟨⟨r1, m1⟩, ⟨hmem, rfl⟩, rfl⟩
    exact hmem
  · intro h
    exact ⟨(r, m), ⟨h, rfl⟩, rfl⟩

theorem join_socks (s : ServerState) (r : String) (sid : SockId) :
    (join s r sid).socks = s.socks := by
  unfold join
  split <;> rfl

theorem mem_join_rooms (s : ServerState) (r : String) (sid : SockId) (p : String × SockId) :
    p ∈ (join s r sid).rooms ↔ p ∈ s.rooms ∨ p = (r, sid) := by
  unfold join
  split
  · rename_i h
    constructor
    · exact Or.inl
    · rintro (hp | rfl)
      · exact hp
      · exact h
  · simp only [List.mem_cons]
    exact or_comm

theorem userRoom_ne_admin (u : String) : userRoom u ≠ "admin_room" := by
  intro h
  unfold userRoom at h
  have h2 := congrArg String.data h
  rw [String.data_append] at h2
  simp [String.data] at h2

theorem mem_emitTo_iff (s : ServerState) (a : SockId) (r : String) (et : EventType)
    (d : Payload) (dl : Delivery) :
    dl ∈ emitTo s a r et d ↔
      dl.recipient ∈ members s r ∧ dl.recipient ≠ a ∧ dl.etype = et ∧ dl.payload = d := by
  obtain ⟨rec, ty, pay⟩ := dl
  simp only [emitTo, List.mem_map, List.mem_filter, bne_iff_ne, ne_eq, Delivery.mk.injEq]
  constructor
  · rintro ⟨m, ⟨hm, hne⟩, rfl, rfl, rfl⟩
    exact ⟨hm, hne, rfl, rfl⟩
  · rintro ⟨hm, hne, rfl, rfl⟩
    exact ⟨rec, ⟨hm, hne⟩, rfl, rfl, rfl⟩

theorem route_recipient_in_some_room (s : ServerState) (a : SockId) (et : EventType)
    (d : Payload) (dl : Delivery) (h : dl ∈ route s a et d) :
    ∃ r, (r, dl.recipient) ∈ s.rooms := by
  cases et with
  | device_update =>
    have h' := (mem_emitTo_iff s a "admin_room" .device_update d dl).1 h
    exact ⟨"admin_room", (mem_members_iff s "admin_room" dl.recipient).1 h'.1⟩
  | location_update =>
    have h' := (mem_emitTo_iff s a "admin_room" .location_update d dl).1 h
    exact ⟨"admin_room", (mem_members_iff s "admin_room" dl.recipient).1 h'.1⟩
  | emergency_notification => cases h
  | emergency_alert =>
    rcases List.mem_append.1 h with h1 | h2
    · have h' := (mem_emitTo_iff s a "admin_room" .emergency_alert d dl).1 h1
      exact ⟨"admin_room", (mem_members_iff s "admin_room" dl.recipient).1 h'.1⟩
    · cases hc : d.contacts with
      | none => rw [hc] at h2; cases h2
      | some cs =>
        rw [hc] at h2
        rcases List.mem_flatMap.1 h2 with ⟨c, _, hin⟩
        have h' := (mem_emitTo_iff s a (userRoom c) .emergency_notification d dl).1 hin
        exact ⟨userRoom c, (mem_members_iff s (userRoom c) dl.recipient).1 h'.1⟩

/-! ## Concrete states used to instantiate the theorems below -/

/-- A small concrete server state: socket 1 is an admin (subject 7), socket 2
a plain user (subject 42), with the memberships the connection handler
produces for them. -/
def wState : ServerState :=
  ⟨[⟨1, "7", some "admin"⟩, ⟨2, "42", none⟩],
   [("admin_room", 1), ("user_7", 1), ("user_42", 2)]⟩

/-- A payload whose `contacts` field is absent/falsy. -/
def wPayload : Payload := ⟨none, "ping"⟩

/-- A payload carrying one contact. -/
def wPayloadC : Payload := ⟨some ["42"], "sos"⟩

/-! ## Claims -/

/-- C4: presenting no credential fails on the missing-credential branch;
a credential with a valid signature that is not expired succeeds with exactly
the `(userId, role)` pair encoded in it; a credential failing the signature
or expiry check — and only such a credential — fails on the invalid branch. -/
theorem verify_credential_spec :
    verifyCredential none = .error .missing ∧
    ∀ t : Token, verifyCredential (some t) =
      (if t.validSignature && !t.expired then .ok t.claims else .error .invalid) := by
  refine ⟨rfl, fun t => ?_⟩
  cases hc : (t.validSignature && !t.expired) with
  | false => simp [verifyCredential, jwtVerify, hc]
  | true => simp [verifyCredential, jwtVerify, hc]

/-- C2: a `device_update` or `location_update` from connection `a` is
delivered to every current member of `admin_room` other than `a`, and every
delivery it produces goes to a member of `admin_room`, is not `a`, keeps the
event type, and forwards the payload verbatim. -/
theorem device_location_route_admin_only (s : ServerState) (a : SockId) (d : Payload)
    (et : EventType) (h : et = .device_update ∨ et = .location_update) :
    (∀ m ∈ members s "admin_room", m ≠ a →
      (⟨m, et, d⟩ : Delivery) ∈ route s a et d) ∧
    (∀ dl ∈ route s a et d,
      dl.recipient ∈ members s "admin_room" ∧ dl.recipient ≠ a ∧
      dl.etype = et ∧ dl.payload = d) := by
  rcases h with rfl | rfl <;>
    exact ⟨fun m hm hne =>
        (mem_emitTo_iff s a "admin_room" _ d ⟨m, _, d⟩).2 ⟨hm, hne, rfl, rfl⟩,
      fun dl hdl => (mem_emitTo_iff s a "admin_room" _ d dl).1 hdl⟩

/-- Witness for C2 at a concrete state and sender. -/
theorem device_location_route_admin_only_w :
    (∀ m ∈ members wState "admin_room", m ≠ 2 →
      (⟨m, .device_update, wPayload⟩ : Delivery) ∈ route wState 2 .device_update wPayload) ∧
    (∀ dl ∈ route wState 2 .device_update wPayload,
      dl.recipient ∈ members wState "admin_room" ∧ dl.recipient ≠ 2 ∧
      dl.etype = .device_update ∧ dl.payload = wPayload) :=
  device_location_route_admin_only wState 2 wPayload .device_update (Or.inl rfl)

/-- C3: right after the connection handler runs for a fresh socket, the
socket is a member of its personal room, and it is a member of `admin_room`
iff its role is privileged. -/
theorem joined_room_memberships (s : ServerState) (sock : Socket)
    (hfresh : ∀ p ∈ s.rooms, p.2 ≠ sock.sid) :
    (userRoom sock.userId, sock.sid) ∈ (onConnection s sock).rooms ∧
    ((("admin_room", sock.sid) ∈ (onConnection s sock).rooms) ↔
      privileged sock.userRole = true) := by
  unfold onConnection
  split
  · rename_i hp
    constructor
    · rw [mem_join_rooms, mem_join_rooms]
      exact Or.inl (Or.inr rfl)
    · exact ⟨fun _ => hp, fun _ => (mem_join_rooms _ _ _ _).2 (Or.inr rfl)⟩
  · rename_i hp
    constructor
    · rw [mem_join_rooms]
      exact Or.inr rfl
    · constructor
      · intro hmem
        rw [mem_join_rooms] at hmem
        rcases hmem with hold | heq
        · exact absurd rfl (hfresh _ hold)
        · exact absurd (congrArg Prod.fst heq).symm (userRoom_ne_admin _)
      · intro hc
        exact absurd hc hp

/-- Witness for C3: a fresh government socket at a concrete state. -/
theorem joined_room_memberships_w :
    (userRoom "9", 3) ∈ (onConnection wState ⟨3, "9", some "government"⟩).rooms ∧
    ((("admin_room", 3) ∈ (onConnection wState ⟨3, "9", some "government"⟩).rooms) ↔
      privileged (some "government") = true) :=
  joined_room_memberships wState ⟨3, "9", some "government"⟩ (by decide)

/-- A state where the sender (socket 1, subject 5) is itself a member of a
contact's personal room and `admin_room` is empty. -/
def cexState : ServerState := ⟨[⟨1, "5", none⟩], [("user_5", 1)]⟩

/-- An emergency payload whose contacts are the pair `["5", "7"]`. -/
def cexPayload : Payload := ⟨some ["5", "7"], "sos"⟩

/-- C1 counterexample: routing an `emergency_alert` with
`contacts = ["5", "7"]` from socket 1 — a current member of `user_5` — yields
no delivery at all, because `socket.to` excludes the sender from the contact
rooms as well; so the event is not delivered to every current member of
`user_5`, refuting the claim as stated. -/
theorem emergency_contact_fanout_excludes_sender_cex :
    1 ∈ members cexState (userRoom "5") ∧
    route cexState 1 .emergency_alert cexPayload = [] := by
  decide

/-- C1 (amended): routing an `emergency_alert` with
`contacts = cs` delivers the event, still typed `emergency_alert`, to every
current member of `admin_room` other than the sender, and the same payload
re-tagged `emergency_notification` to every current member of `user_<c>`
*other than the sender* for each contact `c`; every produced delivery
forwards the payload verbatim and never targets the sender, and a contact
with no connected members contributes no deliveries and no error. -/
theorem emergency_alert_route (s : ServerState) (a : SockId) (d : Payload)
    (cs : List String) (h : d.contacts = some cs) :
    (∀ m ∈ members s "admin_room", m ≠ a →
      (⟨m, .emergency_alert, d⟩ : Delivery) ∈ route s a .emergency_alert d) ∧
    (∀ c ∈ cs, ∀ m ∈ members s (userRoom c), m ≠ a →
      (⟨m, .emergency_notification, d⟩ : Delivery) ∈ route s a .emergency_alert d) ∧
    (∀ dl ∈ route s a .emergency_alert d, dl.payload = d ∧ dl.recipient ≠ a) := by
  refine ⟨?_, ?_, ?_⟩
  · intro m hm hne
    exact List.mem_append_left _
      ((mem_emitTo_iff s a "admin_room" .emergency_alert d ⟨m, _, d⟩).2 ⟨hm, hne, rfl, rfl⟩)
  · intro c hc m hm hne
    apply List.mem_append_right
    rw [h]
    exact List.mem_flatMap.2
      ⟨c, hc, (mem_emitTo_iff s a (userRoom c) .emergency_notification d ⟨m, _, d⟩).2
        ⟨hm, hne, rfl, rfl⟩⟩
  · intro dl hdl
    rcases List.mem_append.1 hdl with h1 | h2
    · have h' := (mem_emitTo_iff s a "admin_room" .emergency_alert d dl).1 h1
      exact ⟨h'.2.2.2, h'.2.1⟩
    · rw [h] at h2
      rcases List.mem_flatMap.1 h2 with ⟨c, _, hin⟩
      have h' := (mem_emitTo_iff s a (userRoom c) .emergency_notification d dl).1 hin
      exact ⟨h'.2.2.2, h'.2.1⟩

/-- Witness for the amended C1 at a concrete state, sender and contact list. -/
theorem emergency_alert_route_w :
    (∀ m ∈ members wState "admin_room", m ≠ 2 →
      (⟨m, .emergency_alert, wPayloadC⟩ : Delivery) ∈ route wState 2 .emergency_alert wPayloadC) ∧
    (∀ c ∈ ["42"], ∀ m ∈ members wState (userRoom c), m ≠ 2 →
      (⟨m, .emergency_notification, wPayloadC⟩ : Delivery) ∈
        route wState 2 .emergency_alert wPayloadC) ∧
    (∀ dl ∈ route wState 2 .emergency_alert wPayloadC,
      dl.payload = wPayloadC ∧ dl.recipient ≠ 2) :=
  emergency_alert_route wState 2 wPayloadC ["42"] rfl

/-- C9: an `emergency_alert` whose payload has no (or a falsy) `contacts`
field is routed to `admin_room` only: the routing equals the plain admin-room
broadcast, and every delivery keeps the type `emergency_alert` and targets a
member of `admin_room` — no `emergency_notification` is produced. -/
theorem emergency_alert_no_contacts (s : ServerState) (a : SockId) (d : Payload)
    (h : d.contacts = none) :
    route s a .emergency_alert d = emitTo s a "admin_room" .emergency_alert d ∧
    ∀ dl ∈ route s a .emergency_alert d,
      dl.etype = .emergency_alert ∧ dl.recipient ∈ members s "admin_room" := by
  have hr : route s a .emergency_alert d = emitTo s a "admin_room" .emergency_alert d := by
    simp only [route, h, List.append_nil]
  refine ⟨hr, ?_⟩
  intro dl hdl
  rw [hr] at hdl
  have h' := (mem_emitTo_iff s a "admin_room" .emergency_alert d dl).1 hdl
  exact ⟨h'.2.2.1, h'.1⟩

/-- Witness for C9 at a concrete state and payload. -/
theorem emergency_alert_no_contacts_w :
    route wState 2 .emergency_alert wPayload = emitTo wState 2 "admin_room" .emergency_alert wPayload ∧
    ∀ dl ∈ route wState 2 .emergency_alert wPayload,
      dl.etype = .emergency_alert ∧ dl.recipient ∈ members wState "admin_room" :=
  emergency_alert_no_contacts wState 2 wPayload rfl

/-- C6: after a disconnect completes, the socket is a member of zero
rooms, and any routing computed afterwards produces no delivery to it. -/
theorem disconnect_leaves_all_rooms (s : ServerState) (sid : SockId) :
    (∀ r : String, sid ∉ members (disconnect s sid) r) ∧
    (∀ (a : SockId) (et : EventType) (d : Payload),
      ∀ dl ∈ route (disconnect s sid) a et d, dl.recipient ≠ sid) := by
  have hno : ∀ r : String, (r, sid) ∉ (disconnect s sid).rooms := by
    intro r hmem
    have h2 := (List.mem_filter.1 hmem).2
    simp at h2
  constructor
  · intro r hr
    exact hno r ((mem_members_iff (disconnect s sid) r sid).1 hr)
  · intro a et d dl hdl heq
    obtain ⟨r, hr⟩ := route_recipient_in_some_room (disconnect s sid) a et d dl hdl
    rw [heq] at hr
    exact hno r hr

/-- Witness for C6 at a concrete state and socket. -/
theorem disconnect_leaves_all_rooms_w :
    (∀ r : String, 1 ∉ members (disconnect wState 1) r) ∧
    (∀ (a : SockId) (et : EventType) (d : Payload),
      ∀ dl ∈ route (disconnect wState 1) a et d, dl.recipient ≠ 1) :=
  disconnect_leaves_all_rooms wState 1

/-- C7: `route` is a total function — a delivery failure is recorded per
recipient by the fan-out and never removes or aborts the remaining
deliveries — and routing any event in a state with no rooms (so every target
room is nonexistent/empty) is a silent no-op producing no deliveries. -/
theorem route_total_and_failures_isolated (s : ServerState) (a : SockId)
    (et : EventType) (d : Payload) (sendFails : SockId → Bool) :
    (fanOut sendFails (route s a et d)).map Prod.fst = route s a et d ∧
    route initState a et d = [] := by
  constructor
  · simp [fanOut, List.map_map, Function.comp_def]
  · cases et <;> cases hd : d.contacts <;>
      simp [route, emitTo, members, initState, hd]

/-! ## The admin-room invariant over all reachable states -/

/-- Every membership pair refers to a registered socket. -/
def RoomsRegistered (s : ServerState) : Prop :=
  ∀ p ∈ s.rooms, ∃ sock ∈ s.socks, sock.sid = p.2

/-- Every registered socket sitting in `admin_room` has a privileged role. -/
def AdminPrivileged (s : ServerState) : Prop :=
  ∀ p ∈ s.rooms, p.1 = "admin_room" →
    ∀ sock ∈ s.socks, sock.sid = p.2 → privileged sock.userRole = true

theorem inv_init : RoomsRegistered initState ∧ AdminPrivileged initState := by
  constructor <;> intro p hp <;> cases hp

theorem onConnection_socks (s : ServerState) (sock : Socket) :
    (onConnection s sock).socks = sock :: s.socks := by
  unfold onConnection
  split <;> simp [join_socks]

theorem mem_onConnection_rooms (s : ServerState) (sock : Socket) (p : String × SockId) :
    p ∈ (onConnection s sock).rooms ↔
      p ∈ s.rooms ∨ p = (userRoom sock.userId, sock.sid) ∨
      (privileged sock.userRole = true ∧ p = ("admin_room", sock.sid)) := by
  unfold onConnection
  split
  · rename_i hp
    rw [mem_join_rooms, mem_join_rooms]
    simp only [hp, true_and]
    tauto
  · rename_i hp
    rw [mem_join_rooms]
    constructor
    · tauto
    · rintro (hold | heq | ⟨hpriv, _⟩)
      · exact Or.inl hold
      · exact Or.inr heq
      · exact absurd hpriv hp

theorem inv_onConnection (s : ServerState) (sock : Socket)
    (h1 : RoomsRegistered s) (h2 : AdminPrivileged s)
    (hfresh : ∀ sk ∈ s.socks, sk.sid ≠ sock.sid) :
    RoomsRegistered (onConnection s sock) ∧ AdminPrivileged (onConnection s sock) := by
  constructor
  · intro p hp
    rw [onConnection_socks]
    rcases (mem_onConnection_rooms s sock p).1 hp with hold | heq | ⟨_, heq⟩
    · obtain ⟨sk, hsk, hsid⟩ := h1 p hold
      exact ⟨sk, List.mem_cons_of_mem _ hsk, hsid⟩
    · exact ⟨sock, List.mem_cons_self _ _, by rw [heq]⟩
    · exact ⟨sock, List.mem_cons_self _ _, by rw [heq]⟩
  · intro p hp hadmin sock' hsock' hsid
    rw [onConnection_socks] at hsock'
    rcases (mem_onConnection_rooms s sock p).1 hp with hold | heq | ⟨hpriv, heq⟩
    · obtain ⟨sk0, hsk0, hsid0⟩ := h1 p hold
      rcases List.mem_cons.1 hsock' with rfl | hmem
      · exact absurd (hsid0.trans hsid.symm) (hfresh sk0 hsk0)
      · exact h2 p hold hadmin sock' hmem hsid
    · rw [heq] at hadmin
      exact absurd hadmin (userRoom_ne_admin sock.userId)
    · rcases List.mem_cons.1 hsock' with rfl | hmem
      · exact hpriv
      · rw [heq] at hsid
        exact absurd hsid (hfresh sock' hmem)

theorem inv_step (s : ServerState) (act : Action)
    (h1 : RoomsRegistered s) (h2 : AdminPrivileged s) :
    RoomsRegistered (step s act) ∧ AdminPrivileged (step s act) := by
  cases act with
  | emit sid et d => exact ⟨h1, h2⟩
  | disconnect sid =>
    constructor
    · intro p hp
      have hp' := List.mem_filter.1 hp
      obtain ⟨sock, hs, hsid⟩ := h1 p hp'.1
      refine ⟨sock, List.mem_filter.2 ⟨hs, ?_⟩, hsid⟩
      have hne : p.2 ≠ sid := by simpa using hp'.2
      simpa [hsid] using hne
    · intro p hp hadmin sock hsock hsid
      exact h2 p (List.mem_filter.1 hp).1 hadmin sock (List.mem_filter.1 hsock).1 hsid
  | connect sid tok =>
    simp only [step]
    split
    · exact ⟨h1, h2⟩
    · rename_i hfresh
      have hfresh' : ∀ sk ∈ s.socks, sk.sid ≠ sid := by
        intro sk hsk heq
        exact hfresh (List.any_eq_true.2 ⟨sk, hsk, by simp [heq]⟩)
      unfold connect
      cases hv : verifyCredential tok with
      | error e => exact ⟨h1, h2⟩
      | ok c => exact inv_onConnection s ⟨sid, c.userId, c.role⟩ h1 h2 hfresh'

theorem inv_run (acts : List Action) :
    RoomsRegistered (run acts) ∧ AdminPrivileged (run acts) := by
  suffices h : ∀ s : ServerState, RoomsRegistered s → AdminPrivileged s →
      RoomsRegistered (acts.foldl step s) ∧ AdminPrivileged (acts.foldl step s) by
    exact h initState inv_init.1 inv_init.2
  induction acts with
  | nil => exact fun s hs1 hs2 => ⟨hs1, hs2⟩
  | cons a as ih =>
    intro s hs1 hs2
    have hstep := inv_step s a hs1 hs2
    exact ih (step s a) hstep.1 hstep.2

/-- C5: in every state reachable by any interleaving of connects, event
emissions and disconnects, a registered socket whose role is not privileged
is never a member of `admin_room`. -/
theorem non_privileged_never_in_admin_room (acts : List Action) (sock : Socket)
    (hmem : sock ∈ (run acts).socks) (hrole : privileged sock.userRole = false) :
    ("admin_room", sock.sid) ∉ (run acts).rooms ∧
    sock.sid ∉ members (run acts) "admin_room" := by
  have hpair : ("admin_room", sock.sid) ∉ (run acts).rooms := by
    intro hp
    have := (inv_run acts).2 _ hp rfl sock hmem rfl
    rw [hrole] at this
    cases this
  exact ⟨hpair, fun hm => hpair ((mem_members_iff (run acts) "admin_room" sock.sid).1 hm)⟩

/-- A concrete trace: a plain user connects, an admin connects, the user
emits a location update, the admin disconnects and reconnects. -/
def wActs : List Action :=
  [.connect 1 (some ⟨⟨"42", some "user"⟩, true, false⟩),
   .connect 2 (some ⟨⟨"7", some "admin"⟩, true, false⟩),
   .emit 1 .location_update ⟨none, "loc"⟩,
   .disconnect 2,
   .connect 3 (some ⟨⟨"7", some "admin"⟩, true, false⟩)]

/-- Witness for C5: the non-privileged socket of the concrete trace is not
in `admin_room`. -/
theorem non_privileged_never_in_admin_room_w :
    ("admin_room", (⟨1, "42", some "user"⟩ : Socket).sid) ∉ (run wActs).rooms ∧
    (⟨1, "42", some "user"⟩ : Socket).sid ∉ members (run wActs) "admin_room" :=
  non_privileged_never_in_admin_room wActs ⟨1, "42", some "user"⟩ (by decide) (by decide)

/-- C8: a token produced by `generateToken` carries no `role` claim, so a
socket authenticated with it reaches the connection handler with
`userRole = none` (the handler runs exactly as for that identity) and is
never joined to `admin_room`, whatever role the database stores. -/
theorem generated_token_never_joins_admin (s : ServerState) (sid : SockId) (uid : String)
    (hfresh : ∀ p ∈ s.rooms, p.2 ≠ sid) :
    (generateToken uid).claims.role = none ∧
    connect s sid (some (generateToken uid)) = onConnection s ⟨sid, uid, none⟩ ∧
    ("admin_room", sid) ∉ (connect s sid (some (generateToken uid))).rooms := by
  refine ⟨rfl, rfl, ?_⟩
  intro hmem
  rw [show connect s sid (some (generateToken uid)) = onConnection s ⟨sid, uid, none⟩ from rfl,
    mem_onConnection_rooms] at hmem
  rcases hmem with hold | heq | ⟨hpriv, _⟩
  · exact hfresh _ hold rfl
  · exact userRoom_ne_admin _ (congrArg Prod.fst heq).symm
  · simp [privileged] at hpriv

/-- Witness for C8 at a concrete state, socket id and user id. -/
theorem generated_token_never_joins_admin_w :
    (generateToken "99").claims.role = none ∧
    connect wState 5 (some (generateToken "99")) = onConnection wState ⟨5, "99", none⟩ ∧
    ("admin_room", 5) ∉ (connect wState 5 (some (generateToken "99"))).rooms :=
  generated_token_never_joins_admin wState 5 "99" (by decide)

/-! ## The login route (`routes/simple-login.js` lines 32-113) -/

/-- A database row, as the column/value association the pg driver returns
(`SELECT * FROM users`); JS object keys are unique, so each column appears
once. -/
abbrev Row := List (String × String)

/-- Model of `email.toLowerCase()` (ASCII-wise, as `Char.toLower` maps each
character). -/
def toLowerCase (s : String) : String := ⟨s.data.map Char.toLower⟩

/-- Reading a column of a row (`user.status`, `user.password`, ...);
`none` models an absent column (`undefined`). -/
def rowLookup (row : Row) (k : String) : Option String :=
  (row.find? (fun p => p.1 == k)).map (fun p => p.2)

/-- The distinct responses `POST /login` can produce: the 400 validation
failure, the two 401 invalid-credentials paths, the 401 inactive-account
path, the 500 catch-all, and the 200 success body carrying the token and
the `user` object. -/
inductive LoginResult
  | validationFailed
  | invalidCredentials
  | notActive
  | serverError
  | success (token : Token) (user : Row)
deriving DecidableEq

/-- The `POST /login` handler: validates the request (`isEmail`, non-empty
password), looks the user up by lowercased email, rejects a non-active
account, checks the password with `bcrypt.compare` (a row without a
`password` column makes `bcrypt.compare` throw into the 500 handler), and on
success responds with a fresh token and the row minus its `password` column
(`const { password: _, ...userResponse } = user`). The external validator
and bcrypt are passed in as oracles. -/
def login (isEmail : String → Bool) (bcryptCompare : String → String → Bool)
    (db : List Row) (email password : String) : LoginResult :=
  if !isEmail email || password == "" then .validationFailed
  else
    match db.find? (fun row => rowLookup row "email" == some (toLowerCase email)) with
    | none => .invalidCredentials
    | some user =>
      if rowLookup user "status" != some "active" then .notActive
      else
        match rowLookup user "password" with
        | none => .serverError
        | some hash =>
          if !bcryptCompare password hash then .invalidCredentials
          else
            .success (generateToken ((rowLookup user "id").getD ""))
              (user.filter (fun p => p.1 != "password"))

/-- C10: every 200/success response of `POST /login` carries a `user`
object that is exactly the matched database row with its `password` column
stripped: no pair of the response is keyed `password`, and the response is
the password-free filtering of a row of the database matched by lowercased
email. -/
theorem login_success_strips_password (isEmail : String → Bool)
    (bcryptCompare : String → String → Bool) (db : List Row)
    (email password : String) (tok : Token) (user : Row)
    (h : login isEmail bcryptCompare db email password = .success tok user) :
    (∀ p ∈ user, p.1 ≠ "password") ∧
    (∃ row ∈ db, rowLookup row "email" = some (toLowerCase email) ∧
      user = row.filter (fun p => p.1 != "password")) := by
  unfold login at h
  split at h
  · simp at h
  · split at h
    · simp at h
    · rename_i row hfind
      split at h
      · simp at h
      · split at h
        · simp at h
        · split at h
          · simp at h
          · injection h with h1 h2
            have hmem := List.mem_of_find?_eq_some hfind
            have hpred := List.find?_some hfind
            rw [beq_iff_eq] at hpred
            refine ⟨?_, row, hmem, hpred, h2.symm⟩
            intro p hp
            rw [← h2] at hp
            have := (List.mem_filter.1 hp).2
            simpa using this

/-- A concrete users row holding all columns the schema mentions. -/
def wRow : Row :=
  [("id", "1"), ("email", "t@x.io"), ("password", "hh"),
   ("role", "admin"), ("status", "active"), ("name", "T")]

/-- A one-row concrete database. -/
def wDb : List Row := [wRow]

/-- The row above with its `password` column stripped. -/
def wUserResp : Row :=
  [("id", "1"), ("email", "t@x.io"), ("role", "admin"), ("status", "active"), ("name", "T")]

/-- Witness for C10: a concrete successful login whose response strips the
password column. -/
theorem login_success_strips_password_w :
    (∀ p ∈ wUserResp, p.1 ≠ "password") ∧
    (∃ row ∈ wDb, rowLookup row "email" = some (toLowerCase "t@x.io") ∧
      wUserResp = row.filter (fun p => p.1 != "password")) :=
  login_success_strips_password (fun _ => true) (fun _ _ => true) wDb "t@x.io" "pw"
    (generateToken "1") wUserResp (by decide)

end TouristPlatform
